import Mathlib

/-!
Shallow embedding of the backendbadie residential-management backend.

The definitions below are translated from the TypeScript source:
  - src/routes/gateEntries.ts   (QR scan, manual creation, today statistics)
  - the auth middleware file    (authenticateToken, verifyUserExists, authorizeRoles)
  - the auth routes file        (resident registration, logout)
  - src/server.ts               (404 handler, global error handler)
  - src/routes/dashboard.ts     (admin statistics, maintenance-bill counts)
  - src/lib/validations.ts      (Zod schemas)

The database is modelled as explicit lists of records; prisma findFirst with
orderBy createdAt desc is modelled by List.find? over a newest-first list.
Timestamps are integers, JSON payloads are structures, and thrown errors are
explicit error values.
-/

namespace BackendBadie

/-- A gate entry record of the gateEntry prisma model.  The log is kept
newest-first, so List.find? corresponds to findFirst with
orderBy createdAt desc. -/
structure GateEntry where
  type : String
  person : String
  apartment : String
  entryType : String
  vehicle : String
  gate : String
  method : String
  residentId : Option String
  createdAt : Nat
deriving Repr, DecidableEq

/-- A resident record; fields used by the auth middleware, the auth routes and
the dashboard.  Optional KYC columns are omitted: no claim reads them. -/
structure Resident where
  id : String
  name : String
  email : String
  apartment : String
  phone : String
  status : String
  approvalStatus : String
  password : Option String
deriving Repr, DecidableEq

/-- An error response body: HTTP status plus the error and message fields. -/
structure ApiError where
  status : Nat
  error : String
  message : String
deriving Repr, DecidableEq

/-- A generic JSON response: HTTP status plus the error and message fields
(success responses carry an empty error field; their bodies are abstracted
to the status). -/
structure HttpResponse where
  status : Nat
  error : String
  message : String
deriving Repr, DecidableEq

/-- Parsed QR payloads, one constructor per value of the type tag switched on
by the POST /qr-scan handler; unknownType covers the default branch. -/
inductive QRData where
  | guestEntry (guestName hostApartment : String)
      (vehicleType licensePlate : Option String) (validFrom validUntil : Int)
  | residentEntry (residentName apartment residentId : String)
  | vehicleEntry (residentName apartment residentId make model licensePlate : String)
  | deliveryEntry (riderName apartment : String) (companyName residentId : Option String)
  | serviceProviderEntry (providerName : String)
  | employeeEntry (employeeName department : String)
  | unknownType (t : String)
deriving Repr, DecidableEq

/-- The lookup key of the per-type prisma findFirst where clause in the
qr-scan handler. -/
inductive LookupKey where
  | guestKey (person apartment : String)
  | residentKey (person apartment : String)
  | vehicleKey (person apartment vehicle : String)
  | deliveryKey (person apartment : String)
  | providerKey (person : String)
  | employeeKey (person : String)
deriving Repr, DecidableEq

/-- The where clause of the findFirst call issued for each lookup key. -/
def matchesKey : LookupKey → GateEntry → Bool
  | .guestKey p a, e => e.person == p && e.apartment == a && e.entryType == "Guest"
  | .residentKey p a, e => e.person == p && e.apartment == a && e.entryType == "Resident"
  | .vehicleKey p a v, e =>
      e.person == p && e.apartment == a && e.vehicle == v && e.entryType == "Resident Vehicle"
  | .deliveryKey p a, e => e.person == p && e.apartment == a && e.entryType == "Delivery"
  | .providerKey p, e => e.person == p && e.entryType == "Service Provider"
  | .employeeKey p, e => e.person == p && e.entryType == "Employee"

/-- vehicleDescription built in the vehicle_entry branch. -/
def vehicleDescription (make model licensePlate : String) : String :=
  make ++ " " ++ model ++ " (" ++ licensePlate ++ ")"

/-- The lookup key queried for a parsed QR payload (none for the default
branch, which creates nothing). -/
def keyOf : QRData → Option LookupKey
  | .guestEntry g h _ _ _ _ => some (.guestKey g h)
  | .residentEntry n a _ => some (.residentKey n a)
  | .vehicleEntry n a _ mk md lp => some (.vehicleKey n a (vehicleDescription mk md lp))
  | .deliveryEntry r a _ _ => some (.deliveryKey r a)
  | .serviceProviderEntry p => some (.providerKey p)
  | .employeeEntry n _ => some (.employeeKey n)
  | .unknownType _ => none

/-- JavaScript truthiness of an optional string field (undefined and the
empty string are falsy). -/
def jsTruthy : Option String → Bool
  | none => false
  | some s => !(s == "")

/-- The JavaScript expression a or-else d for an optional string field. -/
def jsOr (o : Option String) (d : String) : String :=
  match o with
  | some s => if s == "" then d else s
  | none => d

/-- The vehicle string of the guest_entry branch: when licensePlate is truthy
a template literal over vehicleType and licensePlate (an undefined
vehicleType prints as the string undefined), else vehicleType or None. -/
def guestVehicle (vehicleType licensePlate : Option String) : String :=
  if jsTruthy licensePlate then
    (match vehicleType with | some v => v | none => "undefined") ++ " (" ++
      (match licensePlate with | some l => l | none => "undefined") ++ ")"
  else jsOr vehicleType "None"

/-- The entry/exit toggle: ENTRY when no previous entry exists or the most
recent one is an EXIT, and EXIT otherwise. -/
def toggledType (lastEntry : Option GateEntry) : String :=
  match lastEntry with
  | none => "ENTRY"
  | some e => if e.type == "EXIT" then "ENTRY" else "EXIT"

/-- The POST /api/gate-entries/qr-scan handler after JSON parsing: validates
the payload, finds the last matching entry and builds the record passed to
gateEntry.create; ts is the createdAt stamp, now the clock of new Date(). -/
def qrScan (q : QRData) (now : Int) (residents : List Resident)
    (log : List GateEntry) (ts : Nat) : Except ApiError GateEntry :=
  match q with
  | .guestEntry guestName hostApartment vehicleType licensePlate validFrom validUntil =>
    if now < validFrom ∨ now > validUntil then
      .error ⟨400, "QR Code expired", "Guest QR code is not valid at this time"⟩
    else
      let lastGuestEntry := log.find? (matchesKey (.guestKey guestName hostApartment))
      let hostResident := residents.find? (fun r => r.apartment == hostApartment)
      .ok { type := toggledType lastGuestEntry
            person := guestName
            apartment := hostApartment
            entryType := "Guest"
            vehicle := guestVehicle vehicleType licensePlate
            gate := "Main Gate"
            method := "QR Code"
            residentId := hostResident.map (fun r => r.id)
            createdAt := ts }
  | .residentEntry residentName apartment residentId =>
    let lastResidentEntry := log.find? (matchesKey (.residentKey residentName apartment))
    .ok { type := toggledType lastResidentEntry
          person := residentName
          apartment := apartment
          entryType := "Resident"
          vehicle := "None"
          gate := "Main Gate"
          method := "QR Code"
          residentId := some residentId
          createdAt := ts }
  | .vehicleEntry residentName apartment residentId mk md lp =>
    let lastVehicleEntry :=
      log.find? (matchesKey (.vehicleKey residentName apartment (vehicleDescription mk md lp)))
    .ok { type := toggledType lastVehicleEntry
          person := residentName
          apartment := apartment
          entryType := "Resident Vehicle"
          vehicle := vehicleDescription mk md lp
          gate := "Main Gate"
          method := "QR Code"
          residentId := some residentId
          createdAt := ts }
  | .deliveryEntry riderName apartment companyName residentId =>
    let lastDeliveryEntry := log.find? (matchesKey (.deliveryKey riderName apartment))
    .ok { type := toggledType lastDeliveryEntry
          person := riderName
          apartment := apartment
          entryType := "Delivery"
          vehicle := jsOr companyName "Delivery Vehicle"
          gate := "Main Gate"
          method := "QR Code"
          residentId := residentId
          createdAt := ts }
  | .serviceProviderEntry providerName =>
    let lastProviderEntry := log.find? (matchesKey (.providerKey providerName))
    .ok { type := toggledType lastProviderEntry
          person := providerName
          apartment := "Service Provider"
          entryType := "Service Provider"
          vehicle := "None"
          gate := "Main Gate"
          method := "QR Code"
          residentId := none
          createdAt := ts }
  | .employeeEntry employeeName department =>
    let lastEmployeeEntry := log.find? (matchesKey (.employeeKey employeeName))
    .ok { type := toggledType lastEmployeeEntry
          person := employeeName
          apartment := department
          entryType := "Employee"
          vehicle := "None"
          gate := "Main Gate"
          method := "QR Code"
          residentId := none
          createdAt := ts }
  | .unknownType t =>
    .error ⟨400, "Invalid QR code type", "Unknown QR code type: " ++ t⟩

/-- The qr-scan endpoint as a step on the gate-entry log: on success the
created record is prepended (newest first); on an error response the log is
unchanged. -/
def qrScanStep (q : QRData) (now : Int) (residents : List Resident)
    (log : List GateEntry) (ts : Nat) : List GateEntry × Except ApiError GateEntry :=
  match qrScan q now residents log ts with
  | .ok e => (e :: log, .ok e)
  | .error er => (log, .error er)

/-- The request body of the manual POST /api/gate-entries endpoint. -/
structure GateEntryInput where
  type : String
  person : String
  apartment : String
  entryType : String
  vehicle : Option String
  gate : Option String
  method : Option String
  residentId : Option String
deriving Repr, DecidableEq

/-- GateEntrySchema of src/lib/validations.ts: type is the enum ENTRY or
EXIT, person, apartment and entryType are nonempty, the rest optional. -/
def gateEntrySchemaOk (i : GateEntryInput) : Bool :=
  (i.type == "ENTRY" || i.type == "EXIT") &&
    !(i.person == "") && !(i.apartment == "") && !(i.entryType == "")

/-- The manual gate-entry creation endpoint: gateEntry.create on the
validated body. -/
def manualCreate (i : GateEntryInput) (ts : Nat) (log : List GateEntry) : List GateEntry :=
  { type := i.type
    person := i.person
    apartment := i.apartment
    entryType := i.entryType
    vehicle := i.vehicle.getD ""
    gate := i.gate.getD ""
    method := i.method.getD ""
    residentId := i.residentId
    createdAt := ts } :: log

/-- Flip between the ENTRY and EXIT markers. -/
def flipType (t : String) : String :=
  if t == "ENTRY" then "EXIT" else "ENTRY"

/-- A list of type markers strictly alternates starting from expected. -/
def altFrom : String → List String → Bool
  | _, [] => true
  | expected, t :: ts => t == expected && altFrom (flipType expected) ts

/-- The chronological sequence of type markers recorded for a lookup key
(the log is newest-first, so it is reversed first). -/
def chronTypes (k : LookupKey) (log : List GateEntry) : List String :=
  (log.reverse.filter (matchesKey k)).map GateEntry.type

/-- The alternation invariant: for every lookup key the recorded types start
with ENTRY and strictly alternate. -/
def alternationInv (log : List GateEntry) : Prop :=
  ∀ k : LookupKey, altFrom "ENTRY" (chronTypes k log) = true

/-- Gate-entry logs reachable from the empty log by qr-scan requests only. -/
inductive QrReachable : List GateEntry → Prop where
  | empty : QrReachable []
  | scan (q : QRData) (now : Int) (residents : List Resident) (ts : Nat)
      (log : List GateEntry) (e : GateEntry) :
      QrReachable log → qrScan q now residents log ts = .ok e →
      QrReachable (e :: log)

/-- The payload decoded from a JWT by verifyToken. -/
structure TokenPayload where
  id : String
  type : String
  email : String
deriving Repr, DecidableEq

/-- An admin record; fields read by the middleware. -/
structure Admin where
  id : String
  username : String
  email : String
  status : String
deriving Repr, DecidableEq

/-- A service provider record; fields read by the middleware. -/
structure ServiceProvider where
  id : String
  email : String
  status : String
deriving Repr, DecidableEq

/-- An employee record; fields read by the middleware. -/
structure Employee where
  id : String
  email : String
  status : String
deriving Repr, DecidableEq

/-- The database state visible to the middleware and the auth routes. -/
structure DB where
  admins : List Admin
  residents : List Resident
  serviceProviders : List ServiceProvider
  employees : List Employee
deriving Repr, DecidableEq

/-- The authenticateToken middleware: 401 when the bearer token is missing,
403 when jwt verification throws, else the decoded payload is attached.
Verification of the signed token is abstracted as the function verify,
taking the token and the current time (expiry). -/
def authenticateToken (token : Option String)
    (verify : String → Int → Option TokenPayload) (now : Int) :
    Except ApiError TokenPayload :=
  match token with
  | none => .error ⟨401, "Access denied", "No token provided"⟩
  | some t =>
    match verify t now with
    | none => .error ⟨403, "Invalid token", "Token is not valid or has expired"⟩
    | some p => .ok p

/-- The verifyUserExists middleware: looks the decoded user up by type, runs
the per-type account-status check, 404 when the account is missing, 403 on
an unrecognized type. -/
def verifyUserExists (db : DB) (p : TokenPayload) : Except ApiError Unit :=
  if p.type == "admin" then
    match db.admins.find? (fun a => a.id == p.id) with
    | none => .error ⟨404, "User not found", "User account does not exist"⟩
    | some _ => .ok ()
  else if p.type == "resident" then
    match db.residents.find? (fun r => r.id == p.id) with
    | none => .error ⟨404, "User not found", "User account does not exist"⟩
    | some r =>
      if !(r.status == "Active") || !(r.approvalStatus == "APPROVED") then
        .error ⟨403, "Account inactive", "Your resident account is not active or approved"⟩
      else .ok ()
  else if p.type == "serviceProvider" then
    match db.serviceProviders.find? (fun s => s.id == p.id) with
    | none => .error ⟨404, "User not found", "User account does not exist"⟩
    | some s =>
      if !(s.status == "ACTIVE") then
        .error ⟨403, "Account inactive", "Your service provider account is not active"⟩
      else .ok ()
  else if p.type == "employee" then
    match db.employees.find? (fun e => e.id == p.id) with
    | none => .error ⟨404, "User not found", "User account does not exist"⟩
    | some e =>
      if !(e.status == "ACTIVE") then
        .error ⟨403, "Account inactive", "Your employee account is not active"⟩
      else .ok ()
  else .error ⟨403, "Invalid user type", "Unrecognized user type"⟩

/-- The authorizeRoles middleware factory. -/
def authorizeRoles (allowedRoles : List String) (p : TokenPayload) : Except ApiError Unit :=
  if allowedRoles.contains p.type then .ok ()
  else .error ⟨403, "Forbidden", "You don\x27t have permission to access this resource"⟩

/-- The middleware chain of a role-restricted route: authenticateToken, then
verifyUserExists, then authorizeRoles; the request is served only when all
three pass. -/
def authChain (token : Option String) (verify : String → Int → Option TokenPayload)
    (now : Int) (db : DB) (roles : List String) : Except ApiError TokenPayload :=
  match authenticateToken token verify now with
  | .error e => .error e
  | .ok p =>
    match verifyUserExists db p with
    | .error e => .error e
    | .ok _ =>
      match authorizeRoles roles p with
      | .error e => .error e
      | .ok _ => .ok p

/-- Whether the decoded account exists in the table of its user type. -/
def accountExists (db : DB) (p : TokenPayload) : Bool :=
  if p.type == "admin" then (db.admins.find? (fun a => a.id == p.id)).isSome
  else if p.type == "resident" then (db.residents.find? (fun r => r.id == p.id)).isSome
  else if p.type == "serviceProvider" then
    (db.serviceProviders.find? (fun s => s.id == p.id)).isSome
  else if p.type == "employee" then (db.employees.find? (fun e => e.id == p.id)).isSome
  else false

/-- The per-type account-status condition the middleware enforces: nothing
for admins, status Active plus approvalStatus APPROVED for residents, status
ACTIVE for service providers and employees. -/
def statusOk (db : DB) (p : TokenPayload) : Bool :=
  if p.type == "admin" then true
  else if p.type == "resident" then
    match db.residents.find? (fun r => r.id == p.id) with
    | some r => r.status == "Active" && r.approvalStatus == "APPROVED"
    | none => false
  else if p.type == "serviceProvider" then
    match db.serviceProviders.find? (fun s => s.id == p.id) with
    | some s => s.status == "ACTIVE"
    | none => false
  else if p.type == "employee" then
    match db.employees.find? (fun e => e.id == p.id) with
    | some e => e.status == "ACTIVE"
    | none => false
  else true

/-- The status of an auth-chain outcome, when it is an error response. -/
def chainErrorStatus : Except ApiError TokenPayload → Option Nat
  | .error e => some e.status
  | .ok _ => none

/-- The body of POST /api/auth/resident/register after schema validation. -/
structure ResidentInput where
  name : String
  apartment : String
  phone : String
  email : String
  username : Option String
  password : Option String
deriving Repr, DecidableEq

/-- The resident registration handler: findFirst on the same email or the
same apartment rejects with 400; otherwise one resident is created with
approvalStatus PENDING and status Pending (the password hash is abstracted
as the function hash, the generated id as newId). -/
def residentRegister (i : ResidentInput) (db : List Resident)
    (hash : String → String) (newId : String) : List Resident × HttpResponse :=
  match db.find? (fun r => r.email == i.email || r.apartment == i.apartment) with
  | some existing =>
    (db, ⟨400, "Resident already exists",
      if existing.email == i.email then "Email is already registered"
      else "Apartment is already registered"⟩)
  | none =>
    let newResident : Resident :=
      { id := newId
        name := i.name
        email := i.email
        apartment := i.apartment
        phone := i.phone
        status := "Pending"
        approvalStatus := "PENDING"
        password := i.password.map hash }
    (db ++ [newResident], ⟨201, "", "Registration successful"⟩)

/-- A thrown error reaching the global error handler of src/server.ts: its
name, message, optional prisma code and optional statusCode. -/
structure ThrownError where
  name : String
  message : String
  code : Option String
  statusCode : Option Nat
deriving Repr, DecidableEq

/-- The global error handler of src/server.ts: P2002 to 400, P2025 to 404,
ZodError to 400, JsonWebTokenError and TokenExpiredError to 401, anything
else to its statusCode or 500. -/
def globalErrorHandler (err : ThrownError) (production : Bool) : HttpResponse :=
  if err.code == some "P2002" then
    ⟨400, "Duplicate entry", "A record with this data already exists."⟩
  else if err.code == some "P2025" then
    ⟨404, "Record not found", "The requested record does not exist."⟩
  else if err.name == "ZodError" then
    ⟨400, "Validation error", "Invalid input data"⟩
  else if err.name == "JsonWebTokenError" then
    ⟨401, "Invalid token", "Authentication token is invalid."⟩
  else if err.name == "TokenExpiredError" then
    ⟨401, "Token expired", "Authentication token has expired."⟩
  else
    ⟨err.statusCode.getD 500,
     if production then "Internal server error" else err.name,
     if production then "Something went wrong" else err.message⟩

/-- The catch-all 404 handler of src/server.ts. -/
def notFoundHandler (methodName originalUrl : String) : HttpResponse :=
  ⟨404, "Route not found", "Cannot " ++ methodName ++ " " ++ originalUrl⟩

/-- Query parameters of a paginated list endpoint, as raw strings. -/
structure PaginationQuery where
  page : Option String
  limit : Option String
  search : Option String
  sort : Option String
  order : Option String
deriving Repr, DecidableEq

/-- Decimal digits of a JavaScript numeric string. -/
def parseDigitsAux : List Char → Nat → Option Nat
  | [], acc => some acc
  | c :: cs, acc =>
    if c.isDigit then parseDigitsAux cs (acc * 10 + (c.toNat - 48)) else none

/-- The JavaScript Number conversion on decimal strings: none stands for
NaN, which fails every Zod refinement below. -/
def toNumber (s : String) : Option Int :=
  match s.data with
  | [] => none
  | '-' :: cs =>
    match cs with
    | [] => none
    | _ => (parseDigitsAux cs 0).map (fun n => -(n : Int))
  | cs => (parseDigitsAux cs 0).map (fun n => (n : Int))

/-- The page field of PaginationSchema: string, transform Number, refine
positive (a non-numeric string is NaN, which fails the refinement). -/
def parsePage (s : String) : Except ThrownError Int :=
  match toNumber s with
  | some n => if n > 0 then .ok n else .error ⟨"ZodError", "Page must be positive", none, none⟩
  | none => .error ⟨"ZodError", "Page must be positive", none, none⟩

/-- The limit field of PaginationSchema: string, transform Number, refine
between 1 and 100. -/
def parseLimit (s : String) : Except ThrownError Int :=
  match toNumber s with
  | some n =>
    if n > 0 ∧ n ≤ 100 then .ok n
    else .error ⟨"ZodError", "Limit must be between 1 and 100", none, none⟩
  | none => .error ⟨"ZodError", "Limit must be between 1 and 100", none, none⟩

/-- PaginationSchema.parse restricted to the page and limit fields (the
remaining fields are optional plain strings and cannot fail). -/
def parsePagination (q : PaginationQuery) : Except ThrownError (Option Int × Option Int) := do
  let page ← match q.page with
    | none => pure none
    | some s => (parsePage s).map some
  let limit ← match q.limit with
    | none => pure none
    | some s => (parseLimit s).map some
  pure (page, limit)

/-- The GET /api/gate-entries handler: its own try/catch maps every thrown
error, including a Zod validation failure of PaginationSchema.parse, to a
500 response; on success a 200 listing (body abstracted to the status). -/
def getGateEntries (q : PaginationQuery) (log : List GateEntry) : HttpResponse :=
  match parsePagination q with
  | .error _ => ⟨500, "Failed to fetch gate entries", "Internal server error"⟩
  | .ok _ => ⟨200, "", ""⟩

/-- A maintenance bill record; fields read by the dashboard counts. -/
structure MaintenanceBill where
  residentId : String
  month : String
  year : Int
  amount : Int
  dueDate : Int
  status : String
deriving Repr, DecidableEq

/-- The maintenance-bill counters of GET /api/dashboard/admin/stats: total,
status PENDING, status PAID, and status PENDING with dueDate before now. -/
structure BillStats where
  totalMaintenanceBills : Nat
  pendingBills : Nat
  paidBills : Nat
  overdueBills : Nat
deriving Repr, DecidableEq

/-- The four maintenanceBill.count queries of the admin stats handler. -/
def adminBillStats (bills : List MaintenanceBill) (now : Int) : BillStats :=
  { totalMaintenanceBills := bills.length
    pendingBills := (bills.filter (fun b => b.status == "PENDING")).length
    paidBills := (bills.filter (fun b => b.status == "PAID")).length
    overdueBills :=
      (bills.filter (fun b => b.status == "PENDING" && decide (b.dueDate < now))).length }

/-- The status enum of BillUpdateSchema in src/lib/validations.ts. -/
def billUpdateStatusValues : List String := ["PENDING", "PAID", "OVERDUE"]

/-- The statistics body of GET /api/gate-entries/stats/today. -/
structure TodayStats where
  totalEntries : Nat
  totalExits : Nat
  currentOccupancy : Int
  guestEntries : Nat
  vehicleEntries : Nat
deriving Repr, DecidableEq

/-- createdAt between local midnight (dayStart) and the next midnight
(dayEnd), as in the createdAt gte/lt where clauses. -/
def inToday (dayStart dayEnd : Nat) (e : GateEntry) : Bool :=
  decide (dayStart ≤ e.createdAt) && decide (e.createdAt < dayEnd)

/-- The GET /api/gate-entries/stats/today handler: counts today, and
currentOccupancy is Math.max of 0 and totalEntries minus totalExits. -/
def statsToday (log : List GateEntry) (dayStart dayEnd : Nat) : TodayStats :=
  let totalEntries := (log.filter (fun e => e.type == "ENTRY" && inToday dayStart dayEnd e)).length
  let totalExits := (log.filter (fun e => e.type == "EXIT" && inToday dayStart dayEnd e)).length
  let guestEntries :=
    (log.filter (fun e => e.entryType == "Guest" && inToday dayStart dayEnd e)).length
  let vehicleEntries :=
    (log.filter (fun e =>
      (e.entryType == "Resident Vehicle" || e.entryType == "Service Provider") &&
        inToday dayStart dayEnd e)).length
  { totalEntries := totalEntries
    totalExits := totalExits
    currentOccupancy := max 0 ((totalEntries : Int) - (totalExits : Int))
    guestEntries := guestEntries
    vehicleEntries := vehicleEntries }

/-- The POST /api/auth/logout handler: authenticateToken, then a fixed
success body; no database read or write happens. -/
def logout (token : Option String) (verify : String → Int → Option TokenPayload)
    (now : Int) (db : DB) : DB × HttpResponse :=
  match authenticateToken token verify now with
  | .error e => (db, ⟨e.status, e.error, e.message⟩)
  | .ok _ => (db, ⟨200, "", "Logout successful"⟩)

/-! ### Lemmas about the gate-entry toggle and the alternation invariant -/

/-- Prepending an entry appends its type to the chronological sequence of
every key it matches and leaves the other sequences unchanged. -/
lemma chronTypes_cons (k : LookupKey) (e : GateEntry) (log : List GateEntry) :
    chronTypes k (e :: log) =
      chronTypes k log ++ (if matchesKey k e then [e.type] else []) := by
  unfold chronTypes
  rw [List.reverse_cons, List.filter_append, List.map_append]
  congr 1
  by_cases h : matchesKey k e <;> simp [h]

/-- The last element of the chronological sequence for a key is the type of
the entry found by findFirst with orderBy createdAt desc. -/
lemma chronTypes_getLast (k : LookupKey) (log : List GateEntry) :
    (chronTypes k log).getLast? = (log.find? (matchesKey k)).map GateEntry.type := by
  unfold chronTypes
  rw [List.filter_reverse, List.map_reverse, List.getLast?_reverse, List.head?_map,
    List.filter_head?]

/-- The toggle as a function of the last recorded type marker. -/
def toggledOfLast (o : Option String) : String :=
  match o with
  | none => "ENTRY"
  | some t => if t == "EXIT" then "ENTRY" else "EXIT"

lemma toggledType_eq_toggledOfLast (o : Option GateEntry) :
    toggledType o = toggledOfLast (o.map GateEntry.type) := by
  cases o <;> rfl

/-- The marker expected after consuming a list of alternating markers. -/
def nextExpected : String → List String → String
  | exp, [] => exp
  | exp, _ :: ts => nextExpected (flipType exp) ts

lemma altFrom_append (exp : String) (l : List String) (h : altFrom exp l = true) :
    altFrom exp (l ++ [nextExpected exp l]) = true := by
  induction l generalizing exp with
  | nil => simp [altFrom, nextExpected]
  | cons t ts ih =>
    simp only [altFrom, Bool.and_eq_true] at h
    simp only [List.cons_append, altFrom, Bool.and_eq_true, nextExpected]
    exact ⟨h.1, ih _ h.2⟩

lemma nextExpected_eq_toggle (exp : String) (l : List String)
    (hexp : exp = "ENTRY" ∨ exp = "EXIT") (h : altFrom exp l = true) :
    nextExpected exp l =
      (match l.getLast? with
        | none => exp
        | some t => if t == "EXIT" then "ENTRY" else "EXIT") := by
  induction l generalizing exp with
  | nil => rfl
  | cons t ts ih =>
    simp only [altFrom, Bool.and_eq_true, beq_iff_eq] at h
    obtain ⟨ht, halt⟩ := h
    have hflip : flipType exp = "ENTRY" ∨ flipType exp = "EXIT" := by
      rcases hexp with h1 | h1 <;> rw [h1] <;> simp [flipType]
    cases ts with
    | nil =>
      subst ht
      rcases hexp with h1 | h1 <;> rw [h1] <;> decide
    | cons u us =>
      have hrec := ih (flipType exp) hflip halt
      rw [List.getLast?_cons_cons, nextExpected, hrec]
      obtain ⟨v, hv⟩ : ∃ v, (u :: us).getLast? = some v :=
        ⟨_, List.getLast?_eq_getLast (u :: us) (by simp)⟩
      rw [hv]

/-- A successful qr-scan has a lookup key. -/
lemma qrScan_ok_keyOf (q : QRData) (now : Int) (residents : List Resident)
    (log : List GateEntry) (ts : Nat) (e : GateEntry)
    (hq : qrScan q now residents log ts = .ok e) : ∃ k, keyOf q = some k := by
  cases q <;> simp [keyOf, qrScan] at hq ⊢

/-- The type of a created qr-scan entry is the toggle over the last entry
found for the lookup key of the payload. -/
lemma qrScan_ok_type (q : QRData) (now : Int) (residents : List Resident)
    (log : List GateEntry) (ts : Nat) (e : GateEntry) (k : LookupKey)
    (hq : qrScan q now residents log ts = .ok e) (hk : keyOf q = some k) :
    e.type = toggledType (log.find? (matchesKey k)) := by
  cases q with
  | guestEntry g h vt lp vf vu =>
    simp only [keyOf, Option.some.injEq] at hk
    subst hk
    simp only [qrScan] at hq
    split at hq
    · exact absurd hq (by simp)
    · obtain rfl := (Except.ok.injEq _ _).mp hq.symm
      rfl
  | residentEntry n a r =>
    simp only [keyOf, Option.some.injEq] at hk
    subst hk
    simp only [qrScan] at hq
    obtain rfl := (Except.ok.injEq _ _).mp hq.symm
    rfl
  | vehicleEntry n a r mk md lp =>
    simp only [keyOf, Option.some.injEq] at hk
    subst hk
    simp only [qrScan] at hq
    obtain rfl := (Except.ok.injEq _ _).mp hq.symm
    rfl
  | deliveryEntry r a c rid =>
    simp only [keyOf, Option.some.injEq] at hk
    subst hk
    simp only [qrScan] at hq
    obtain rfl := (Except.ok.injEq _ _).mp hq.symm
    rfl
  | serviceProviderEntry p =>
    simp only [keyOf, Option.some.injEq] at hk
    subst hk
    simp only [qrScan] at hq
    obtain rfl := (Except.ok.injEq _ _).mp hq.symm
    rfl
  | employeeEntry n d =>
    simp only [keyOf, Option.some.injEq] at hk
    subst hk
    simp only [qrScan] at hq
    obtain rfl := (Except.ok.injEq _ _).mp hq.symm
    rfl
  | unknownType t => simp [qrScan] at hq

/-- A created qr-scan entry matches no lookup key other than the key of its
payload. -/
lemma qrScan_matches_imp (q : QRData) (now : Int) (residents : List Resident)
    (log : List GateEntry) (ts : Nat) (e : GateEntry) (k : LookupKey)
    (hq : qrScan q now residents log ts = .ok e) (hk : keyOf q = some k) :
    ∀ k2 : LookupKey, matchesKey k2 e = true → k2 = k := by
  intro k2 hm
  cases q with
  | guestEntry g h vt lp vf vu =>
    simp only [keyOf, Option.some.injEq] at hk
    subst hk
    simp only [qrScan] at hq
    split at hq
    · exact absurd hq (by simp)
    · obtain rfl := (Except.ok.injEq _ _).mp hq.symm
      cases k2 <;> simp_all [matchesKey]
  | residentEntry n a r =>
    simp only [keyOf, Option.some.injEq] at hk
    subst hk
    simp only [qrScan] at hq
    obtain rfl := (Except.ok.injEq _ _).mp hq.symm
    cases k2 <;> simp_all [matchesKey]
  | vehicleEntry n a r mk md lp =>
    simp only [keyOf, Option.some.injEq] at hk
    subst hk
    simp only [qrScan] at hq
    obtain rfl := (Except.ok.injEq _ _).mp hq.symm
    cases k2 <;> simp_all [matchesKey]
  | deliveryEntry r a c rid =>
    simp only [keyOf, Option.some.injEq] at hk
    subst hk
    simp only [qrScan] at hq
    obtain rfl := (Except.ok.injEq _ _).mp hq.symm
    cases k2 <;> simp_all [matchesKey]
  | serviceProviderEntry p =>
    simp only [keyOf, Option.some.injEq] at hk
    subst hk
    simp only [qrScan] at hq
    obtain rfl := (Except.ok.injEq _ _).mp hq.symm
    cases k2 <;> simp_all [matchesKey]
  | employeeEntry n d =>
    simp only [keyOf, Option.some.injEq] at hk
    subst hk
    simp only [qrScan] at hq
    obtain rfl := (Except.ok.injEq _ _).mp hq.symm
    cases k2 <;> simp_all [matchesKey]
  | unknownType t => simp [qrScan] at hq

/-- A successful qr-scan preserves the alternation invariant. -/
lemma qrScan_preserves_alternation (q : QRData) (now : Int)
    (residents : List Resident) (log : List GateEntry) (ts : Nat) (e : GateEntry)
    (hq : qrScan q now residents log ts = .ok e)
    (hinv : alternationInv log) : alternationInv (e :: log) := by
  obtain ⟨k, hk⟩ := qrScan_ok_keyOf q now residents log ts e hq
  intro k2
  rw [chronTypes_cons]
  by_cases hm : matchesKey k2 e = true
  · rw [if_pos hm]
    obtain rfl := qrScan_matches_imp q now residents log ts e k hq hk k2 hm
    have htype : e.type = toggledOfLast (chronTypes k2 log).getLast? := by
      rw [qrScan_ok_type q now residents log ts e k2 hq hk,
        toggledType_eq_toggledOfLast, chronTypes_getLast]
    have hne : nextExpected "ENTRY" (chronTypes k2 log) = e.type := by
      rw [htype, nextExpected_eq_toggle "ENTRY" _ (Or.inl rfl) (hinv k2)]
      cases (chronTypes k2 log).getLast? <;> rfl
    rw [← hne]
    exact altFrom_append "ENTRY" _ (hinv k2)
  · rw [if_neg hm, List.append_nil]
    exact hinv k2

/-! ### Claim theorems for the qr-scan toggle -/

/-- C1: every gate entry created by an accepted qr-scan of a recognized type
has type ENTRY exactly when no previous gate entry exists for the lookup key
of the payload or the most recent such entry has type EXIT, and type EXIT
otherwise. -/
theorem C1_qr_scan_toggle (q : QRData) (now : Int) (residents : List Resident)
    (log : List GateEntry) (ts : Nat) (e : GateEntry) (k : LookupKey)
    (hq : qrScan q now residents log ts = Except.ok e)
    (hk : keyOf q = some k) :
    (e.type = "ENTRY" ↔
       log.find? (matchesKey k) = none ∨
       ∃ lastE, log.find? (matchesKey k) = some lastE ∧ lastE.type = "EXIT") ∧
    (e.type = "EXIT" ↔
       ∃ lastE, log.find? (matchesKey k) = some lastE ∧ lastE.type ≠ "EXIT") := by
  have htype := qrScan_ok_type q now residents log ts e k hq hk
  cases hfind : log.find? (matchesKey k) with
  | none =>
    rw [hfind] at htype
    simp only [toggledType] at htype
    rw [htype]
    constructor
    · simp
    · constructor
      · intro hcontra; exact absurd hcontra (by decide)
      · rintro ⟨lastE, hsome, _⟩; exact absurd hsome (by simp)
  | some lastE =>
    rw [hfind] at htype
    simp only [toggledType] at htype
    by_cases hE : lastE.type = "EXIT"
    · rw [if_pos (by simp [hE])] at htype
      rw [htype]
      constructor
      · simp only [true_iff]
        exact Or.inr ⟨lastE, rfl, hE⟩
      · constructor
        · intro hcontra; exact absurd hcontra (by decide)
        · rintro ⟨l2, hl2, hne⟩
          obtain rfl := (Option.some.injEq _ _).mp hl2
          exact absurd hE hne
    · rw [if_neg (by simp [hE])] at htype
      rw [htype]
      constructor
      · constructor
        · intro hcontra; exact absurd hcontra (by decide)
        · rintro (hnone | ⟨l2, hl2, hX⟩)
          · exact absurd hnone (by simp)
          · obtain rfl := (Option.some.injEq _ _).mp hl2
            exact absurd hX hE
      · simp only [true_iff]
        exact ⟨lastE, rfl, hE⟩

/-- A concrete service-provider scan on the empty log (used by witnesses). -/
def annScanEntry : GateEntry :=
  { type := "ENTRY", person := "Ann", apartment := "Service Provider",
    entryType := "Service Provider", vehicle := "None", gate := "Main Gate",
    method := "QR Code", residentId := none, createdAt := 0 }

/-- Witness for C1 at a concrete accepted scan. -/
theorem C1_qr_scan_toggle_witness :
    (annScanEntry.type = "ENTRY" ↔
       ([] : List GateEntry).find? (matchesKey (LookupKey.providerKey "Ann")) = none ∨
       ∃ lastE, ([] : List GateEntry).find? (matchesKey (LookupKey.providerKey "Ann")) =
           some lastE ∧ lastE.type = "EXIT") ∧
    (annScanEntry.type = "EXIT" ↔
       ∃ lastE, ([] : List GateEntry).find? (matchesKey (LookupKey.providerKey "Ann")) =
           some lastE ∧ lastE.type ≠ "EXIT") :=
  C1_qr_scan_toggle (.serviceProviderEntry "Ann") 0 [] [] 0 annScanEntry
    (.providerKey "Ann") rfl rfl

/-- C3 (amended): in every gate-entry log reachable from the empty log
through the qr-scan endpoint alone, the recorded types of every lookup key
start with ENTRY and strictly alternate. -/
theorem C3_qr_alternation (log : List GateEntry) (h : QrReachable log) :
    alternationInv log := by
  induction h with
  | empty => intro k; rfl
  | scan q now residents ts log e _ hq ih =>
    exact qrScan_preserves_alternation q now residents log ts e hq ih

/-- Witness for C3: the invariant on a log reached by one concrete scan. -/
theorem C3_qr_alternation_witness :
    altFrom "ENTRY" (chronTypes (LookupKey.providerKey "Ann") [annScanEntry]) = true :=
  C3_qr_alternation [annScanEntry]
    (QrReachable.scan (.serviceProviderEntry "Ann") 0 [] 0 [] annScanEntry
      QrReachable.empty rfl)
    (LookupKey.providerKey "Ann")

/-- A schema-valid manual gate-entry body whose type is EXIT. -/
def manualExitInput : GateEntryInput :=
  { type := "EXIT", person := "Eve", apartment := "A-1", entryType := "Guest",
    vehicle := none, gate := none, method := none, residentId := none }

/-- Counterexample to C3 as stated: the manual gate-entry endpoint does not
preserve the alternation invariant — a schema-valid EXIT record created on
the empty log makes the first record of its key an EXIT. -/
theorem C3_manual_breaks_alternation :
    gateEntrySchemaOk manualExitInput = true ∧
    alternationInv [] ∧
    ¬ alternationInv (manualCreate manualExitInput 1 []) := by
  refine ⟨by decide, fun k => rfl, fun h => ?_⟩
  exact absurd (h (LookupKey.guestKey "Eve" "A-1")) (by decide)

/-- C4: a guest_entry scan strictly before validFrom or strictly after
validUntil yields a 400 QR Code expired response and leaves the log
unchanged; a scan within the window creates exactly one gate entry. -/
theorem C4_guest_validity_window (guestName hostApartment : String)
    (vehicleType licensePlate : Option String) (validFrom validUntil now : Int)
    (residents : List Resident) (log : List GateEntry) (ts : Nat) :
    (now < validFrom ∨ now > validUntil →
      qrScanStep (.guestEntry guestName hostApartment vehicleType licensePlate
          validFrom validUntil) now residents log ts =
        (log, .error ⟨400, "QR Code expired", "Guest QR code is not valid at this time"⟩)) ∧
    (validFrom ≤ now → now ≤ validUntil →
      ∃ e, qrScanStep (.guestEntry guestName hostApartment vehicleType licensePlate
          validFrom validUntil) now residents log ts = (e :: log, .ok e)) := by
  constructor
  · intro hout
    rw [qrScanStep, qrScan, if_pos hout]
  · intro h1 h2
    have hin : ¬ (now < validFrom ∨ now > validUntil) := by
      push_neg
      omega
    rw [qrScanStep, qrScan, if_neg hin]
    exact ⟨_, rfl⟩

/-- Witness for C4: a concrete out-of-window scan and a concrete in-window
scan. -/
theorem C4_guest_validity_window_witness :
    qrScanStep (.guestEntry "Joe" "A-2" none none 0 10) 20 [] [] 3 =
      ([], .error ⟨400, "QR Code expired", "Guest QR code is not valid at this time"⟩) ∧
    ∃ e, qrScanStep (.guestEntry "Joe" "A-2" none none 0 10) 5 [] [] 3 = ([e], .ok e) :=
  ⟨(C4_guest_validity_window "Joe" "A-2" none none 0 10 20 [] [] 3).1
      (Or.inr (by decide)),
   (C4_guest_validity_window "Joe" "A-2" none none 0 10 5 [] [] 3).2
      (by decide) (by decide)⟩

/-! ### The auth middleware chain -/

/-- The user types issued by the login handlers. -/
def knownUserType (s : String) : Prop :=
  s = "admin" ∨ s = "resident" ∨ s = "serviceProvider" ∨ s = "employee"

/-- verifyUserExists succeeds exactly when the account exists and its status
check passes; a known-type missing account yields the 404 response and an
existing account failing its status check a 403 Account inactive response. -/
lemma verifyUserExists_spec (db : DB) (p : TokenPayload) :
    (verifyUserExists db p = .ok () ↔
      accountExists db p = true ∧ statusOk db p = true) ∧
    (knownUserType p.type → accountExists db p = false →
      verifyUserExists db p = .error ⟨404, "User not found", "User account does not exist"⟩) ∧
    (accountExists db p = true → statusOk db p = false →
      ∃ msg, verifyUserExists db p = .error ⟨403, "Account inactive", msg⟩) := by
  unfold verifyUserExists accountExists statusOk knownUserType
  by_cases h1 : (p.type == "admin") = true
  · simp only [h1, if_true]
    cases hf : db.admins.find? (fun a => a.id == p.id) <;> simp [hf]
  · simp only [h1, Bool.false_eq_true, if_false]
    by_cases h2 : (p.type == "resident") = true
    · simp only [h2, if_true]
      cases hf : db.residents.find? (fun r => r.id == p.id) with
      | none => simp [hf]
      | some r =>
        simp only [hf, Option.isSome_some]
        by_cases hs : (!(r.status == "Active") || !(r.approvalStatus == "APPROVED")) = true
        · have hs2 : (r.status == "Active" && r.approvalStatus == "APPROVED") = false := by
            revert hs
            cases r.status == "Active" <;> cases r.approvalStatus == "APPROVED" <;> decide
          simp [hs, hs2]
        · have hs2 : (r.status == "Active" && r.approvalStatus == "APPROVED") = true := by
            revert hs
            cases r.status == "Active" <;> cases r.approvalStatus == "APPROVED" <;> decide
          simp [hs, hs2]
    · simp only [h2, Bool.false_eq_true, if_false]
      by_cases h3 : (p.type == "serviceProvider") = true
      · simp only [h3, if_true]
        cases hf : db.serviceProviders.find? (fun s => s.id == p.id) with
        | none => simp [hf]
        | some s =>
          simp only [hf, Option.isSome_some]
          by_cases hs : (s.status == "ACTIVE") = true
          · simp [hs]
          · simp [hs]
      · simp only [h3, Bool.false_eq_true, if_false]
        by_cases h4 : (p.type == "employee") = true
        · simp only [h4, if_true]
          cases hf : db.employees.find? (fun e => e.id == p.id) with
          | none => simp [hf]
          | some e =>
            simp only [hf, Option.isSome_some]
            by_cases hs : (e.status == "ACTIVE") = true
            · simp [hs]
            · simp [hs]
        · simp only [h4, Bool.false_eq_true, if_false]
          simp only [beq_iff_eq] at h1 h2 h3 h4
          simp [h1, h2, h3, h4]

/-- C2: a protected role-restricted route serves a request exactly when the
bearer token verifies, the decoded account exists, its per-type status check
passes and the decoded type is in the allowed role set; a missing token gets
401, an invalid token 403, a missing account 404, a failing status check
403, and a disallowed role 403. -/
theorem C2_auth_middleware_chain (token : Option String)
    (verify : String → Int → Option TokenPayload) (now : Int) (db : DB)
    (roles : List String) :
    ((authChain token verify now db roles).isOk = true ↔
       ∃ t p, token = some t ∧ verify t now = some p ∧
         accountExists db p = true ∧ statusOk db p = true ∧
         roles.contains p.type = true) ∧
    (token = none →
       authChain token verify now db roles =
         .error ⟨401, "Access denied", "No token provided"⟩) ∧
    (∀ t, token = some t → verify t now = none →
       authChain token verify now db roles =
         .error ⟨403, "Invalid token", "Token is not valid or has expired"⟩) ∧
    (∀ t p, token = some t → verify t now = some p → knownUserType p.type →
       accountExists db p = false →
       chainErrorStatus (authChain token verify now db roles) = some 404) ∧
    (∀ t p, token = some t → verify t now = some p →
       accountExists db p = true → statusOk db p = false →
       chainErrorStatus (authChain token verify now db roles) = some 403) ∧
    (∀ t p, token = some t → verify t now = some p →
       accountExists db p = true → statusOk db p = true →
       roles.contains p.type = false →
       authChain token verify now db roles =
         .error ⟨403, "Forbidden", "You don\x27t have permission to access this resource"⟩) := by
  refine ⟨?_, ?_, ?_, ?_, ?_, ?_⟩
  · cases token with
    | none => simp [authChain, authenticateToken, Except.isOk, Except.toBool]
    | some t =>
      cases hv : verify t now with
      | none => simp [authChain, authenticateToken, Except.isOk, Except.toBool, hv]
      | some p =>
        simp only [authChain, authenticateToken, hv]
        cases hve : verifyUserExists db p with
        | error e =>
          simp only [Except.isOk, Except.toBool, Bool.false_eq_true, false_iff]
          rintro ⟨t2, p2, ht2, hp2, hex, hst, _⟩
          obtain rfl := (Option.some.injEq _ _).mp ht2
          rw [hv] at hp2
          obtain rfl := (Option.some.injEq _ _).mp hp2
          have hcontra := ((verifyUserExists_spec db p).1.mpr ⟨hex, hst⟩)
          rw [hve] at hcontra
          exact Except.noConfusion hcontra
        | ok u =>
          cases u
          have hexst := (verifyUserExists_spec db p).1.mp hve
          unfold authorizeRoles
          by_cases hr : roles.contains p.type = true
          · simp only [hr, if_true]
            simp only [Except.isOk, Except.toBool, true_iff]
            exact ⟨t, p, rfl, hv, hexst.1, hexst.2, hr⟩
          · simp only [Bool.not_eq_true] at hr
            simp only [hr, Bool.false_eq_true, if_false]
            simp only [Except.isOk, Except.toBool, Bool.false_eq_true, false_iff]
            rintro ⟨t2, p2, ht2, hp2, _, _, hcontains⟩
            obtain rfl := (Option.some.injEq _ _).mp ht2
            rw [hv] at hp2
            obtain rfl := (Option.some.injEq _ _).mp hp2
            rw [hr] at hcontains
            exact Bool.noConfusion hcontains
  · rintro rfl
    rfl
  · rintro t rfl hv
    simp [authChain, authenticateToken, hv]
  · rintro t p rfl hv hknown hex
    have h404 := (verifyUserExists_spec db p).2.1 hknown hex
    simp [authChain, authenticateToken, hv, h404, chainErrorStatus]
  · rintro t p rfl hv hex hst
    obtain ⟨msg, h403⟩ := (verifyUserExists_spec db p).2.2 hex hst
    simp [authChain, authenticateToken, hv, h403, chainErrorStatus]
  · rintro t p rfl hv hex hst hroles
    have hok := (verifyUserExists_spec db p).1.mpr ⟨hex, hst⟩
    have hroles2 : ¬ (p.type ∈ roles) := by simpa using hroles
    simp [authChain, authenticateToken, hv, hok, authorizeRoles, hroles2]

/-- A concrete approved active resident for the auth witnesses. -/
def witnessResident : Resident :=
  { id := "r1", name := "John", email := "j@x.com", apartment := "A-1",
    phone := "1234567890", status := "Active", approvalStatus := "APPROVED",
    password := some "h" }

/-- A concrete database for the auth witnesses: one approved active resident. -/
def witnessDB : DB :=
  { admins := [], residents := [witnessResident], serviceProviders := [],
    employees := [] }

/-- A concrete token verifier for the auth witnesses. -/
def witnessVerify : String → Int → Option TokenPayload :=
  fun t _ => if t == "tok1" then some ⟨"r1", "resident", "j@x.com"⟩ else none

/-- Witness for C2: at the concrete database, the chain serves the resident
token and rejects a missing token with 401. -/
theorem C2_auth_middleware_chain_witness :
    ((authChain (some "tok1") witnessVerify 0 witnessDB ["admin", "resident"]).isOk = true) ∧
    authChain none witnessVerify 0 witnessDB ["admin", "resident"] =
      .error ⟨401, "Access denied", "No token provided"⟩ := by
  have h := C2_auth_middleware_chain (some "tok1") witnessVerify 0 witnessDB
    ["admin", "resident"]
  have h2 := C2_auth_middleware_chain (none : Option String) witnessVerify 0 witnessDB
    ["admin", "resident"]
  exact ⟨h.1.mpr ⟨"tok1", ⟨"r1", "resident", "j@x.com"⟩, rfl, by decide, by decide,
    by decide, by decide⟩, h2.2.1 rfl⟩

/-! ### Resident registration -/

lemma find?_append_of_none {α : Type} (p : α → Bool) (l1 l2 : List α)
    (h : l1.find? p = none) : (l1 ++ l2).find? p = l2.find? p := by
  induction l1 with
  | nil => rfl
  | cons a t ih =>
    have ha : ¬ p a = true := by
      have := List.find?_eq_none.mp h a (by simp)
      simpa using this
    rw [List.cons_append, List.find?_cons_of_neg _ ha]
    rw [List.find?_cons_of_neg _ ha] at h
    exact ih h

/-- C5: registration with an email or apartment already present answers 400
and creates no record; otherwise exactly one resident is created, with
approvalStatus PENDING and status Pending, and the middleware account-status
check rejects that resident with 403 until approved. -/
theorem C5_resident_registration (i : ResidentInput) (db : List Resident)
    (hash : String → String) (newId : String) (adb : DB)
    (hfresh : ∀ r ∈ db, ¬ r.id = newId) :
    ((∃ r ∈ db, r.email = i.email ∨ r.apartment = i.apartment) →
       (residentRegister i db hash newId).1 = db ∧
       (residentRegister i db hash newId).2.status = 400) ∧
    ((∀ r ∈ db, ¬ r.email = i.email ∧ ¬ r.apartment = i.apartment) →
       ∃ newR : Resident,
         residentRegister i db hash newId =
           (db ++ [newR], ⟨201, "", "Registration successful"⟩) ∧
         newR.approvalStatus = "PENDING" ∧ newR.status = "Pending" ∧ newR.id = newId ∧
         verifyUserExists { adb with residents := db ++ [newR] }
             ⟨newId, "resident", i.email⟩ =
           .error ⟨403, "Account inactive",
             "Your resident account is not active or approved"⟩) := by
  constructor
  · intro hdup
    have hsome : (db.find? (fun r => r.email == i.email || r.apartment == i.apartment)).isSome := by
      rw [List.find?_isSome]
      obtain ⟨r, hr, hor⟩ := hdup
      exact ⟨r, hr, by simpa using hor⟩
    obtain ⟨ex, hex⟩ := Option.isSome_iff_exists.mp hsome
    unfold residentRegister
    rw [hex]
    exact ⟨rfl, rfl⟩
  · intro hnone
    have hfind : db.find? (fun r => r.email == i.email || r.apartment == i.apartment) = none := by
      rw [List.find?_eq_none]
      intro r hr
      have hno := hnone r hr
      simp [hno.1, hno.2]
    unfold residentRegister
    rw [hfind]
    refine ⟨_, rfl, rfl, rfl, rfl, ?_⟩
    unfold verifyUserExists
    have h1 : (("resident" : String) == "admin") = false := by decide
    have h2 : (("resident" : String) == "resident") = true := by decide
    simp only [h1, h2, Bool.false_eq_true, if_false, if_true]
    have hdbnone : db.find? (fun r => r.id == newId) = none := by
      rw [List.find?_eq_none]
      intro r hr
      simpa using hfresh r hr
    rw [find?_append_of_none _ _ _ hdbnone,
      List.find?_cons_of_pos _ (by simp)]
    simp

/-- A fresh registration body for the C5 witness. -/
def regInput : ResidentInput :=
  { name := "Sara", apartment := "B-2", phone := "0300111222", email := "s@x.com",
    username := none, password := none }

/-- A registration body whose apartment is already taken, for the C5 witness. -/
def dupRegInput : ResidentInput :=
  { name := "Tina", apartment := "A-1", phone := "0300333444", email := "t@x.com",
    username := none, password := none }

/-- Witness for C5: a concrete duplicate rejection and a concrete creation. -/
theorem C5_resident_registration_witness :
    ((residentRegister dupRegInput [witnessResident] (fun s => s) "r9").1 = [witnessResident] ∧
     (residentRegister dupRegInput [witnessResident] (fun s => s) "r9").2.status = 400) ∧
    (∃ newR : Resident,
       residentRegister regInput [witnessResident] (fun s => s) "r9" =
         ([witnessResident] ++ [newR], ⟨201, "", "Registration successful"⟩) ∧
       newR.approvalStatus = "PENDING" ∧ newR.status = "Pending" ∧ newR.id = "r9" ∧
       verifyUserExists { witnessDB with residents := [witnessResident] ++ [newR] }
           ⟨"r9", "resident", regInput.email⟩ =
         .error ⟨403, "Account inactive",
           "Your resident account is not active or approved"⟩) :=
  ⟨(C5_resident_registration dupRegInput [witnessResident] (fun s => s) "r9" witnessDB
      (by decide)).1 ⟨witnessResident, by simp, Or.inr (by decide)⟩,
   (C5_resident_registration regInput [witnessResident] (fun s => s) "r9" witnessDB
      (by decide)).2 (by decide)⟩

/-! ### Error mapping, dashboard counts, today statistics, logout -/

/-- Counterexample to C6 as stated: a Zod validation failure of the
pagination query in GET /api/gate-entries is mapped by the handler-local
catch to a 500 response, not to 400. -/
theorem C6_zod_failure_maps_to_500 :
    parsePagination ⟨some "0", none, none, none, none⟩ =
      .error ⟨"ZodError", "Page must be positive", none, none⟩ ∧
    getGateEntries ⟨some "0", none, none, none, none⟩ [] =
      ⟨500, "Failed to fetch gate entries", "Internal server error"⟩ ∧
    (getGateEntries ⟨some "0", none, none, none, none⟩ []).status ≠ 400 := by
  have hg : getGateEntries ⟨some "0", none, none, none, none⟩ [] =
      ⟨500, "Failed to fetch gate entries", "Internal server error"⟩ := rfl
  exact ⟨rfl, hg, by rw [hg]; decide⟩

/-- C6 (amended): every thrown error is mapped to a JSON response with
error and message fields; the global handler maps P2002 to 400, P2025 to
404, ZodError to 400, JWT errors to 401 and anything else to its statusCode
or 500, and unknown routes get a 404; but a handler with its own catch-all
(GET /api/gate-entries) maps every error it catches, including Zod
validation failures, to its fixed 500 response. -/
theorem C6_error_responses (err : ThrownError) (production : Bool)
    (methodName originalUrl : String) (q : PaginationQuery) (log : List GateEntry) :
    (err.code = some "P2002" → (globalErrorHandler err production).status = 400) ∧
    (err.code = some "P2025" → (globalErrorHandler err production).status = 404) ∧
    (err.code ≠ some "P2002" → err.code ≠ some "P2025" → err.name = "ZodError" →
       globalErrorHandler err production = ⟨400, "Validation error", "Invalid input data"⟩) ∧
    (err.code ≠ some "P2002" → err.code ≠ some "P2025" →
       (err.name = "JsonWebTokenError" ∨ err.name = "TokenExpiredError") →
       (globalErrorHandler err production).status = 401) ∧
    (err.code ≠ some "P2002" → err.code ≠ some "P2025" → err.name ≠ "ZodError" →
       err.name ≠ "JsonWebTokenError" → err.name ≠ "TokenExpiredError" →
       err.statusCode = none →
       (globalErrorHandler err production).status = 500) ∧
    (notFoundHandler methodName originalUrl).status = 404 ∧
    ((getGateEntries q log).status = 200 ∨
      getGateEntries q log = ⟨500, "Failed to fetch gate entries", "Internal server error"⟩) := by
  refine ⟨?_, ?_, ?_, ?_, ?_, rfl, ?_⟩
  · intro h
    simp [globalErrorHandler, h]
  · intro h
    simp [globalErrorHandler, h]
  · intro h1 h2 h3
    simp [globalErrorHandler, h1, h2, h3]
  · rintro h1 h2 (h3 | h3) <;> simp [globalErrorHandler, h1, h2, h3]
  · intro h1 h2 h3 h4 h5 h6
    simp [globalErrorHandler, h1, h2, h3, h4, h5, h6]
  · cases hp : parsePagination q with
    | error e => exact Or.inr (by simp [getGateEntries, hp])
    | ok v => exact Or.inl (by simp [getGateEntries, hp])

/-- Witness for C6 (amended) at concrete errors and a concrete query. -/
theorem C6_error_responses_witness :
    (globalErrorHandler ⟨"PrismaClientKnownRequestError", "dup", some "P2002", none⟩
        false).status = 400 ∧
    globalErrorHandler ⟨"ZodError", "bad input", none, none⟩ false =
      ⟨400, "Validation error", "Invalid input data"⟩ ∧
    (globalErrorHandler ⟨"TypeError", "boom", none, none⟩ false).status = 500 ∧
    (notFoundHandler "GET" "/nope").status = 404 := by
  have h1 := C6_error_responses ⟨"PrismaClientKnownRequestError", "dup", some "P2002", none⟩
    false "GET" "/nope" ⟨none, none, none, none, none⟩ []
  have h2 := C6_error_responses ⟨"ZodError", "bad input", none, none⟩
    false "GET" "/nope" ⟨none, none, none, none, none⟩ []
  have h3 := C6_error_responses ⟨"TypeError", "boom", none, none⟩
    false "GET" "/nope" ⟨none, none, none, none, none⟩ []
  exact ⟨h1.1 rfl,
    h2.2.2.1 (by decide) (by decide) rfl,
    h3.2.2.2.2.1 (by decide) (by decide) (by decide) (by decide) (by decide) rfl,
    h1.2.2.2.2.2.1⟩

/-- C8: the admin dashboard counts pendingBills as status PENDING, paidBills
as status PAID, and overdueBills as exactly status PENDING with dueDate
strictly before now; a bill whose status is the OVERDUE enum value of
BillUpdateSchema is counted in none of the three. -/
theorem C8_dashboard_bill_counts (bills : List MaintenanceBill) (now : Int)
    (b : MaintenanceBill) (hb : b.status = "OVERDUE") :
    (adminBillStats bills now).pendingBills =
      (bills.filter (fun x => x.status = "PENDING")).length ∧
    (adminBillStats bills now).paidBills =
      (bills.filter (fun x => x.status = "PAID")).length ∧
    (adminBillStats bills now).overdueBills =
      (bills.filter (fun x => x.status = "PENDING" ∧ x.dueDate < now)).length ∧
    "OVERDUE" ∈ billUpdateStatusValues ∧
    adminBillStats (b :: bills) now =
      { totalMaintenanceBills := (adminBillStats bills now).totalMaintenanceBills + 1
        pendingBills := (adminBillStats bills now).pendingBills
        paidBills := (adminBillStats bills now).paidBills
        overdueBills := (adminBillStats bills now).overdueBills } := by
  have hpend : ∀ x : MaintenanceBill,
      (x.status == "PENDING") = decide (x.status = "PENDING") := by
    intro x
    by_cases hs : x.status = "PENDING" <;> simp [hs]
  have hover : ∀ x : MaintenanceBill,
      (x.status == "PENDING" && decide (x.dueDate < now)) =
        decide (x.status = "PENDING" ∧ x.dueDate < now) := by
    intro x
    by_cases hs : x.status = "PENDING" <;> by_cases hd : x.dueDate < now <;>
      simp [hs, hd]
  have hpaid : ∀ x : MaintenanceBill,
      (x.status == "PAID") = decide (x.status = "PAID") := by
    intro x
    by_cases hs : x.status = "PAID" <;> simp [hs]
  refine ⟨?_, ?_, ?_, by decide, ?_⟩
  · simp only [adminBillStats]
    rw [List.filter_congr (fun x _ => hpend x)]
  · simp only [adminBillStats]
    rw [List.filter_congr (fun x _ => hpaid x)]
  · simp only [adminBillStats]
    rw [List.filter_congr (fun x _ => hover x)]
  · simp [adminBillStats, List.filter_cons, hb]

/-- Witness for C8 at a concrete OVERDUE bill. -/
theorem C8_dashboard_bill_counts_witness :
    (adminBillStats [] 5).pendingBills =
      (([] : List MaintenanceBill).filter (fun x => x.status = "PENDING")).length ∧
    (adminBillStats [] 5).paidBills =
      (([] : List MaintenanceBill).filter (fun x => x.status = "PAID")).length ∧
    (adminBillStats [] 5).overdueBills =
      (([] : List MaintenanceBill).filter
        (fun x => x.status = "PENDING" ∧ x.dueDate < 5)).length ∧
    "OVERDUE" ∈ billUpdateStatusValues ∧
    adminBillStats [⟨"r1", "JANUARY", 2024, 2500, 0, "OVERDUE"⟩] 5 =
      { totalMaintenanceBills := (adminBillStats [] 5).totalMaintenanceBills + 1
        pendingBills := (adminBillStats [] 5).pendingBills
        paidBills := (adminBillStats [] 5).paidBills
        overdueBills := (adminBillStats [] 5).overdueBills } :=
  C8_dashboard_bill_counts [] 5 ⟨"r1", "JANUARY", 2024, 2500, 0, "OVERDUE"⟩ rfl

/-- C9: today statistics report currentOccupancy as the maximum of 0 and
the difference between the ENTRY and EXIT records created today, hence the
reported occupancy is never negative. -/
theorem C9_today_occupancy (log : List GateEntry) (dayStart dayEnd : Nat) :
    (statsToday log dayStart dayEnd).currentOccupancy =
      max 0
        (((log.filter (fun e => e.type = "ENTRY" ∧
            dayStart ≤ e.createdAt ∧ e.createdAt < dayEnd)).length : Int) -
         ((log.filter (fun e => e.type = "EXIT" ∧
            dayStart ≤ e.createdAt ∧ e.createdAt < dayEnd)).length : Int)) ∧
    0 ≤ (statsToday log dayStart dayEnd).currentOccupancy := by
  have hentry : ∀ e : GateEntry,
      (e.type == "ENTRY" && inToday dayStart dayEnd e) =
        decide (e.type = "ENTRY" ∧ dayStart ≤ e.createdAt ∧ e.createdAt < dayEnd) := by
    intro e
    unfold inToday
    by_cases h1 : e.type = "ENTRY" <;> by_cases h2 : dayStart ≤ e.createdAt <;>
      by_cases h3 : e.createdAt < dayEnd <;> simp [h1, h2, h3]
  have hexit : ∀ e : GateEntry,
      (e.type == "EXIT" && inToday dayStart dayEnd e) =
        decide (e.type = "EXIT" ∧ dayStart ≤ e.createdAt ∧ e.createdAt < dayEnd) := by
    intro e
    unfold inToday
    by_cases h1 : e.type = "EXIT" <;> by_cases h2 : dayStart ≤ e.createdAt <;>
      by_cases h3 : e.createdAt < dayEnd <;> simp [h1, h2, h3]
  constructor
  · simp only [statsToday]
    rw [List.filter_congr (fun e _ => hentry e), List.filter_congr (fun e _ => hexit e)]
  · simp only [statsToday]
    exact le_max_left 0 _

/-- C10: logout changes no database state and revokes nothing — the same
token authenticates through the middleware chain identically before and
after the logout, at any later time and for any role set. -/
theorem C10_logout_no_state_change (token : Option String)
    (verify : String → Int → Option TokenPayload) (now : Int) (db : DB) :
    (logout token verify now db).1 = db ∧
    (∀ p, authenticateToken token verify now = .ok p →
       (logout token verify now db).2 = ⟨200, "", "Logout successful"⟩) ∧
    (∀ later : Int, ∀ roles : List String,
       authChain token verify later (logout token verify now db).1 roles =
         authChain token verify later db roles) := by
  have hdb : (logout token verify now db).1 = db := by
    unfold logout
    cases authenticateToken token verify now <;> rfl
  refine ⟨hdb, ?_, ?_⟩
  · intro p hp
    unfold logout
    rw [hp]
  · intro later roles
    rw [hdb]

/-- Witness for C10 at a concrete authenticated token. -/
theorem C10_logout_no_state_change_witness :
    (logout (some "tok1") witnessVerify 0 witnessDB).1 = witnessDB ∧
    (logout (some "tok1") witnessVerify 0 witnessDB).2 = ⟨200, "", "Logout successful"⟩ :=
  ⟨(C10_logout_no_state_change (some "tok1") witnessVerify 0 witnessDB).1,
   (C10_logout_no_state_change (some "tok1") witnessVerify 0 witnessDB).2.1
     ⟨"r1", "resident", "j@x.com"⟩ rfl⟩

end BackendBadie
